import Mathlib

/-!
# Verification of the `execexam` failure-extraction engine

A shallow embedding of `src/execexam/extract.py` (the extraction engine of
the `execexam` repository) together with theorems settling the spec's
claims about it.

Modelling conventions:
* Python strings are Lean `String`s; the Python string operations
  (`in`, `split`, `strip`, `startswith`, slicing, `replace`) are
  implemented below over character lists (`substr`, `pySplit`,
  `splitFirst`, `pyStrip`, `pyStartswith`, `pyDrop`, `pyReplace`).
* The filesystem is an explicit association list `FS` from paths to file
  contents; `open(p).read()` becomes a lookup, and an absent path models
  an `OSError`.
* `ast.parse` + the `ast.walk` search for a `FunctionDef` named `f` is
  modelled textually: a (parse-able) file defines `f` when some line,
  after stripping leading indentation, starts with `def f(`.
* Python `eval` of assertion operands is an external oracle
  `evalFn : String → Option PyLit`; `none` models a raised exception.
* `get_called_functions_from_test` imports and introspects the live test
  module (`importlib` / `inspect`); its result is passed in explicitly as
  `called : List String`.
* `tested_functions` in `extract_tested_functions` is a Python `set` of
  strings.  CPython iterates such a set in an unspecified, hash-seed
  dependent order, so the iteration order is an explicit parameter
  `setOrder`; any enumeration of the set's elements is an admissible
  behaviour of the code.
* Fallible dictionary subscripts (`d["k"]`, raising `KeyError`) are
  modelled with `Except String`; `d.get("k", default)` with `Option.getD`.
-/

namespace Execexam

/-! ## String helpers (Python string operations)

Python string operations are implemented over character lists by
structural recursion, so every definition evaluates inside the kernel. -/

/-- Python's substring test `needle in hay`, over character lists. -/
def infixOf (needle : List Char) : List Char → Bool
  | [] => needle.isEmpty
  | c :: t => needle.isPrefixOf (c :: t) || infixOf needle t

/-- Python's `needle in hay` for strings. -/
def substr (needle hay : String) : Bool :=
  infixOf needle.toList hay.toList

/-- Splitting helper: `acc` is the chunk under construction and the fuel
starts at the string length (one character is consumed per step, so the
fuel never runs out). -/
def splitCharsAux (sep : List Char) :
    Nat → List Char → List Char → List (List Char)
  | 0, acc, s => [acc ++ s]
  | fuel + 1, acc, s =>
    if sep ≠ [] && sep.isPrefixOf s then
      acc :: splitCharsAux sep fuel [] (s.drop sep.length)
    else
      match s with
      | [] => [acc]
      | c :: t => splitCharsAux sep fuel (acc ++ [c]) t

/-- Python's `s.split(sep)` for a non-empty separator: split on every
non-overlapping, leftmost occurrence; always returns at least one
chunk. -/
def pySplit (s sep : String) : List String :=
  (splitCharsAux sep.toList s.toList.length [] s.toList).map String.mk

/-- Python's `s.split(sep, 1)`: the part before the first occurrence of
`sep`, and (when `sep` occurs) the rest of the string. -/
def splitFirst (s sep : String) : String × Option String :=
  match pySplit s sep with
  | [] => ("", none)
  | [x] => (x, none)
  | x :: rest => (x, some (String.intercalate sep rest))

/-- Python's whitespace class (`str.strip` with no argument). -/
def isPySpace (c : Char) : Bool :=
  c.toNat = 32 || c.toNat = 9 || c.toNat = 10 || c.toNat = 13 ||
    c.toNat = 11 || c.toNat = 12

/-- Python's `s.strip()`. -/
def pyStrip (s : String) : String :=
  String.mk
    (((s.toList.dropWhile isPySpace).reverse.dropWhile isPySpace).reverse)

/-- Python's `s.lstrip()` (leading whitespace only). -/
def pyLstrip (s : String) : String :=
  String.mk (s.toList.dropWhile isPySpace)

/-- Python's `s.startswith(pre)`. -/
def pyStartswith (s pre : String) : Bool :=
  pre.toList.isPrefixOf s.toList

/-- Python's `s[n:]`. -/
def pyDrop (s : String) (n : Nat) : String :=
  String.mk (s.toList.drop n)

/-- Python's `s.replace(old, new)` for a non-empty `old`. -/
def pyReplace (s old new : String) : String :=
  String.intercalate new (pySplit s old)

/-- Python's `s.strip(chars)`: drop characters in `cs` from both ends. -/
def stripChars (cs : List Char) (s : String) : String :=
  String.mk ((s.toList.dropWhile (cs.contains ·)).reverse.dropWhile
    (cs.contains ·)).reverse

/-- Number of leading space characters of a line (used to model the
indentation extent of a `FunctionDef` node). -/
def leadingSpaces (s : String) : Nat :=
  (s.toList.takeWhile (· = ' ')).length

/-! ## The filesystem model -/

/-- File system: association list from path to file contents. -/
def FS := List (String × String)

/-- `open(path).read()`: `none` models a raised `OSError`. -/
def readFile (fs : FS) (path : String) : Option String :=
  (List.lookup path (fs : List (String × String)))

/-! ## `extract_tested_functions` -/

/-- `re.findall(r"(\w+)\(", code)`: every maximal run of word characters
immediately followed by `(`.  The accumulator carries the current run of
word characters, in reverse. -/
def findallCallNames (acc : List Char) : List Char → List String
  | [] => []
  | c :: t =>
    if c = '(' then
      if acc.isEmpty then findallCallNames [] t
      else String.mk acc.reverse :: findallCallNames [] t
    else if c.isAlphanum || c = '_' then findallCallNames (c :: acc) t
    else findallCallNames [] t

/-- All call-expression callee names of a code string, in match order. -/
def functionCallNames (code : String) : List String :=
  findallCallNames [] code.toList

/-- The reserved prefixes filtered out by `extract_tested_functions`. -/
def ignorePrefixes : List String := ["assert", "test_"]

/-- The call names surviving the reserved-prefix filter, in match order
(the insertion order into the Python set). -/
def filteredCallNames (code : String) : List String :=
  (functionCallNames code).filter
    (fun n => ! (ignorePrefixes.any (fun p => pyStartswith n p)))

/-- Result type of `extract_tested_functions`: the Python function returns
either a `set` of names or, when the set is empty, the input string. -/
inductive TestedFuncs where
  | set (elems : List String)
  | code (s : String)
  deriving Repr, DecidableEq

/-- `extract_tested_functions`: filter the call names of the failing test
code, collect them into a set (elements listed in insertion order,
duplicates removed), and return the input string itself when the set is
empty. -/
def extract_tested_functions (failing_test_code : String) : TestedFuncs :=
  let elems := (filteredCallNames failing_test_code).eraseDups
  if elems.isEmpty then .code failing_test_code else .set elems

/-- The list Python's `for func in tested_funcs` iterates over: for a set,
an enumeration `setOrder` of its elements (unspecified order); for a
string, its characters as one-character strings. -/
def testedIter (tf : TestedFuncs) (setOrder : List String) : List String :=
  match tf with
  | .set _ => setOrder
  | .code s => s.toList.map (fun c => String.mk [c])

/-- The candidate-selection loop shared by both `longrepr` processors:
`func = ""` followed by `for func in iter: if func in called: ... break`.
Returns the loop variable's final value and, when some candidate matched,
that candidate (the assignment to `tested_function`).  When no candidate
matches, the loop variable leaks the last iterated candidate. -/
def selectLoop (called : List String) : List String → String × Option String
  | [] => ("", none)
  | [x] => if called.contains x then (x, some x) else (x, none)
  | x :: y :: t =>
    if called.contains x then (x, some x) else selectLoop called (y :: t)

/-! ## `function_exists_in_file` and `find_source_file` -/

/-- Textual model of "the file's syntax tree contains a `FunctionDef`
named `f`": some line, after stripping leading indentation, starts with
`def f(`. -/
def definesFunction (contents f : String) : Bool :=
  (pySplit contents "\n").any
    (fun l => pyStartswith (pyLstrip l) ("def " ++ f ++ "("))

/-- `function_exists_in_file`: open and parse the file, searching for a
`FunctionDef` named `function_name`; any exception (here: the file is
absent) yields `False`. -/
def function_exists_in_file (fs : FS) (file_path function_name : String) :
    Bool :=
  match readFile fs file_path with
  | none => false
  | some contents => definesFunction contents function_name

/-- One iteration of `find_source_file`'s line loop: the candidate file
path the line's import statement maps to, or `none` when the line yields
no viable candidate. -/
def importCandidate (line : String) : Option String :=
  if substr "import" line then
    let imported0 := pyStrip ((pySplit line "import").getLastD "")
    let imported1 :=
      if substr "." imported0 then (pySplit imported0 ".").getLastD ""
      else imported0
    let imported :=
      if substr "from" line then
        pyStrip ((pySplit ((pySplit line "from").getLastD "")
          "import").headD "")
      else imported1
    if imported = "pytest" then none
    else
      let file_path := pyReplace imported "." "/" ++ ".py"
      if file_path = "pytest.py" then none else some file_path
  else none

/-- The line loop of `find_source_file`: return the first import-derived
candidate path whose file defines `function`, else the empty string. -/
def scanImportLines (fs : FS) (function : String) : List String → String
  | [] => ""
  | line :: rest =>
    match importCandidate line with
    | none => scanImportLines fs function rest
    | some file_path =>
      if function_exists_in_file fs file_path function then file_path
      else scanImportLines fs function rest

/-- `find_source_file`: scan the test file's import lines for a module
file defining `function`.  An unreadable test file yields the formatted
error message (the Python exception text is abstracted to the fixed
suffix shown); exhausting the lines yields `""`.  There is no further
fallback. -/
def find_source_file (fs : FS) (test_path function : String) : String :=
  let test_file := ((pySplit test_path "::").headD "")
  match readFile fs test_file with
  | none =>
    "Error reading file " ++ test_file ++
      ": [Errno 2] No such file or directory"
  | some contents => scanImportLines fs function (pySplit contents "\n")

/-! ## The report data model -/

/-- A Python value produced by `eval` on an assertion operand.  Only
presence/absence matters to the claims; the payload models literals. -/
inductive PyLit where
  | int (n : Int)
  | str (s : String)
  | bool (b : Bool)
  | noneVal
  deriving Repr, DecidableEq

/-- `reprfileloc` entry of a structured traceback: `path` and `lineno`
(`none` models an absent key, whose `get` default `""` is falsy). -/
structure ReprFileLoc where
  path : String := ""
  lineno : Option Int := none
  deriving Repr, DecidableEq

/-- `reprcrash` record of a structured traceback. -/
structure ReprCrash where
  message : String := ""
  deriving Repr, DecidableEq

/-- Dictionary-shaped `longrepr`: crash record plus `reprtraceback`'s
`reprentries`.  An entry is `none` when it is not a dictionary or carries
no (truthy) `reprfileloc`. -/
structure DictLongrepr where
  reprcrash : Option ReprCrash := none
  reprentries : List (Option ReprFileLoc) := []
  deriving Repr, DecidableEq

/-- The `crash` record of a test's `call` (used by
`extract_failing_test_details`); `none` fields model absent keys. -/
structure Crash where
  lineno : Option Int := none
  message : Option String := none
  deriving Repr, DecidableEq

/-- The `call` record of a test case.  `longrepr` is a string or a
dictionary; an absent key defaults to `{}` (the empty dictionary). -/
structure Call where
  crash : Option Crash := none
  longrepr : Option (String ⊕ DictLongrepr) := none
  log : Option String := none
  deriving Repr, DecidableEq

/-- One test case of the JSON report. -/
structure TestEntry where
  nodeid : Option String := none
  outcome : Option String := none
  call : Option Call := none
  deriving Repr, DecidableEq

/-- The raw JSON report: top-level keys `tests`, `root` and `summary`;
`none` models a missing key. -/
structure Report where
  tests : Option (List TestEntry) := none
  root : Option String := none
  summary : Option (List (String × Int)) := none
  deriving Repr, DecidableEq

/-- The `traceback_info` record assembled per failing test.  `varsField`
models the `variables` key (that name is reserved in Lean); the code
never writes to it. -/
structure TracebackInfo where
  test_path : String := ""
  source_file : String := ""
  tested_function : String := ""
  full_traceback : String := ""
  error_type : String := ""
  error_message : String := ""
  stack_trace : List String := []
  varsField : List (String × PyLit) := []
  assertion_detail : String := ""
  expected_value : Option PyLit := none
  actual_value : Option PyLit := none
  deriving Repr, DecidableEq

/-! ## `process_string_longrepr` -/

/-- The `if`/`elif` chain of the line loop of `process_string_longrepr`:
a file-location line is appended to `stack_trace`; otherwise an
`"E   "`-marker line fills the error fields when `error_message` is still
empty. -/
def processLineErr (ti : TracebackInfo) (line : String) : TracebackInfo :=
  if substr "File " line && substr ", line " line then
    { ti with stack_trace := ti.stack_trace ++ [pyStrip line] }
  else if pyStartswith line "E   " then
    if ti.error_message = "" then
      match splitFirst (pyDrop line 4) ": " with
      | (k, some m) => { ti with error_type := k, error_message := m }
      | (k, none) => { ti with error_message := k }
    else ti
  else ti

/-- The guarded operand evaluation of the `assert` branch: unpack the
`==` split (a failed unpack raises `ValueError`, swallowed), then `eval`
each stripped operand; `actual_value` is assigned before
`expected_value`, so a failure of the second `eval` leaves the first
assignment in place. -/
def assertEval (evalFn : String → Option PyLit) (ti : TracebackInfo)
    (line : String) : TracebackInfo :=
  if substr "==" line then
    match splitFirst (pyStrip ((pySplit line "assert").getLastD ""))
        "==" with
    | (_, none) => ti
    | (actual, some expected) =>
      match evalFn (stripChars ['(', ')', ' '] actual) with
      | none => ti
      | some va =>
        match evalFn (stripChars ['(', ')', ' '] expected) with
        | none => { ti with actual_value := some va }
        | some ve =>
          { ti with actual_value := some va, expected_value := some ve }
  else ti

/-- The `assert`-capture branch of the line loop. -/
def processLineAssert (evalFn : String → Option PyLit)
    (ti : TracebackInfo) (line : String) : TracebackInfo :=
  if substr "assert" line then
    assertEval evalFn { ti with assertion_detail := pyStrip line } line
  else ti

/-- One full iteration of the line loop: the file-location / error-marker
`if`/`elif` chain, then the independent `assert` capture. -/
def processLine (evalFn : String → Option PyLit) (ti : TracebackInfo)
    (line : String) : TracebackInfo :=
  processLineAssert evalFn (processLineErr ti line) line

/-- `process_string_longrepr`.  `calledOf` models
`get_called_functions_from_test` (which imports and introspects the live
test module, so its result is an oracle of the test path); `setOrder` is
the iteration order of the candidate set (see `testedIter`). -/
def process_string_longrepr (fs : FS) (evalFn : String → Option PyLit)
    (calledOf : String → List String) (setOrder : List String)
    (longrepr : String) (ti : TracebackInfo)
    (test_path failing_code : String) : TracebackInfo :=
  let ti := { ti with full_traceback := longrepr }
  let lines := pySplit longrepr "\n"
  let called_functions := calledOf test_path
  let tested_funcs := extract_tested_functions failing_code
  let (func, sel) :=
    selectLoop called_functions (testedIter tested_funcs setOrder)
  let ti :=
    match sel with
    | some f => { ti with tested_function := f }
    | none => ti
  let source_file := find_source_file fs test_path func
  let ti :=
    if source_file != "" then { ti with source_file := source_file }
    else ti
  lines.foldl (processLine evalFn) ti

/-! ## `process_dict_longrepr` -/

/-- The stack-trace entries contributed by the `reprentries` of a
dictionary-shaped `longrepr`: dictionary entries with a truthy
`reprfileloc` whose `path` and `lineno` are both truthy (`lineno = 0` is
falsy in Python). -/
def dictStackEntries (entries : List (Option ReprFileLoc)) : List String :=
  entries.foldl
    (fun acc e =>
      match e with
      | none => acc
      | some loc =>
        match loc.lineno with
        | none => acc
        | some n =>
          if loc.path != "" && n != 0 then
            acc ++ ["File " ++ loc.path ++ ", line " ++ toString n]
          else acc)
    []

/-- `process_dict_longrepr`.  When `find_source_file` yields a falsy
result, the placeholder `"File not found"` is stored in `source_file`;
the crash message is split on the first `": "` into
`error_type`/`error_message`. -/
def process_dict_longrepr (fs : FS)
    (calledOf : String → List String) (setOrder : List String)
    (longrepr : DictLongrepr) (ti : TracebackInfo)
    (test_path failing_code : String) : TracebackInfo :=
  let crash := longrepr.reprcrash.getD {}
  let entries := longrepr.reprentries
  let tested_funcs := extract_tested_functions failing_code
  let called_functions := calledOf test_path
  let (func, sel) :=
    selectLoop called_functions (testedIter tested_funcs setOrder)
  let ti :=
    match sel with
    | some f => { ti with tested_function := f }
    | none => ti
  let source_file0 := find_source_file fs test_path func
  let source_file :=
    if source_file0 = "" then "File not found" else source_file0
  let ti := { ti with source_file := source_file }
  let message := crash.message
  let ti :=
    match splitFirst message ": " with
    | (k, some m) => { ti with error_type := k, error_message := m }
    | (_, none) => { ti with error_message := message }
  { ti with stack_trace := ti.stack_trace ++ dictStackEntries entries }

/-! ## `extract_tracebacks` -/

/-- Result of `extract_tracebacks`: the Python function returns either a
list of strings (the no-report sentinel) or a list of records. -/
inductive ExtractResult where
  | strings (l : List String)
  | records (l : List TracebackInfo)
  deriving Repr, DecidableEq

/-- The record a single failing/errored test is processed into.  The
`longrepr` dispatch: a string goes to `process_string_longrepr`, a
dictionary to `process_dict_longrepr`, and an absent key defaults to the
empty dictionary (hence the dictionary path).  Afterwards an empty
`full_traceback` is backfilled from `call["log"]` when that key exists. -/
def processFailingTest (fs : FS) (evalFn : String → Option PyLit)
    (calledOf : String → List String) (setOrder : List String)
    (failing_code : String) (test : TestEntry) : TracebackInfo :=
  let test_path := test.nodeid.getD ""
  let call := test.call.getD {}
  let ti : TracebackInfo := { test_path := test_path }
  let ti :=
    match call.longrepr with
    | some (.inl s) =>
      process_string_longrepr fs evalFn calledOf setOrder s ti test_path
        failing_code
    | some (.inr d) =>
      process_dict_longrepr fs calledOf setOrder d ti test_path
        failing_code
    | none =>
      process_dict_longrepr fs calledOf setOrder {} ti test_path
        failing_code
  match call.log with
  | some l => if ti.full_traceback = "" then { ti with full_traceback := l }
              else ti
  | none => ti

/-- A record is appended only when it carries some information. -/
def hasTracebackInfo (ti : TracebackInfo) : Bool :=
  ti.full_traceback != "" || ti.error_message != "" ||
    ti.stack_trace != []

/-- The test loop of `extract_tracebacks`. -/
def tracebackLoop (fs : FS) (evalFn : String → Option PyLit)
    (calledOf : String → List String) (setOrder : List String)
    (failing_code : String) : List TestEntry → List TracebackInfo
  | [] => []
  | t :: rest =>
    if t.outcome == some "failed" || t.outcome == some "error" then
      let ti := processFailingTest fs evalFn calledOf setOrder
        failing_code t
      if hasTracebackInfo ti then
        ti :: tracebackLoop fs evalFn calledOf setOrder failing_code rest
      else tracebackLoop fs evalFn calledOf setOrder failing_code rest
    else tracebackLoop fs evalFn calledOf setOrder failing_code rest

/-- `extract_tracebacks`: a falsy report yields the sentinel list; the
`tests` key is read with `.get("tests", [])`, so a missing case list
yields an empty record list (and `root`/`summary` are never consulted). -/
def extract_tracebacks (fs : FS) (evalFn : String → Option PyLit)
    (calledOf : String → List String) (setOrder : List String)
    (json_report : Option Report) (failing_code : String) :
    ExtractResult :=
  match json_report with
  | none => .strings ["No Traceback Found"]
  | some r =>
    .records (tracebackLoop fs evalFn calledOf setOrder failing_code
      (r.tests.getD []))

/-! ## `extract_failing_test_details` and the summary readers -/

/-- A fallible Python dictionary subscript `d["key"]`: raises `KeyError`
when the key is absent. -/
def bracket {α : Type} (o : Option α) (key : String) : Except String α :=
  match o with
  | some a => .ok a
  | none => .error ("KeyError: " ++ key)

/-- `extract_details`: join the summary counters as `"{value} {key}"`. -/
def extract_details (details : List (String × Int)) : String :=
  let output := details.map (fun kv => toString kv.2 ++ " " ++ kv.1)
  if output.isEmpty then "" else "Details: " ++ String.intercalate ", " output

/-- `extract_test_run_details`: reads `details["summary"]` (raising
`KeyError` when absent) and renders it. -/
def extract_test_run_details (details : Report) : Except String String := do
  let summary ← bracket details.summary "summary"
  pure (extract_details summary)

/-- The loop of `extract_failing_test_details`.  `pts` models
`convert.path_to_string` (defined outside the extraction module).  For a
failing case the fields `outcome`, `nodeid`, `call`, `crash`, the
top-level `root`, `lineno` and `message` are read with raising
subscripts, in source order; `Path(root) / rel` is modelled as
`root ++ "/" ++ rel`. -/
def eftdLoop (pts : String → Nat → String) (rootKey : Option String) :
    List TestEntry → String → List (String × String) →
    Except String (String × List (String × String))
  | [], acc, paths => .ok (acc, paths)
  | t :: rest, acc, paths => do
    let outcome ← bracket t.outcome "outcome"
    if outcome = "failed" then do
      let nodeid ← bracket t.nodeid "nodeid"
      let acc := acc ++ "  Name: " ++ nodeid ++ "\n"
      let call ← bracket t.call "call"
      let crash ← bracket call.crash "crash"
      let root ← bracket rootKey "root"
      let nsplit := pySplit nodeid "::"
      let test_path := root ++ "/" ++ nsplit.headD ""
      let test_name := nsplit.getLastD ""
      let paths := paths ++ [(test_name, test_path)]
      let pstr := pts test_path 4
      let lineno ← bracket crash.lineno "lineno"
      let message ← bracket crash.message "message"
      let acc := acc ++ "  Path: " ++ pstr ++ "\n" ++
        "  Line number: " ++ toString lineno ++ "\n" ++
        "  Message: " ++ message ++ "\n"
      eftdLoop pts rootKey rest acc paths
    else eftdLoop pts rootKey rest acc paths

/-- `extract_failing_test_details`: reads `details["tests"]` with a
raising subscript, then accumulates the description string and the
`(test_name, test_path)` records of every failing case. -/
def extract_failing_test_details (pts : String → Nat → String)
    (details : Report) :
    Except String (String × List (String × String)) := do
  let tests ← bracket details.tests "tests"
  eftdLoop pts details.root tests "\n" []

/-! ## `extract_function_code_from_traceback` -/

/-- Index of the first line whose stripped prefix is `def f(` (the
`FunctionDef` found by `ast.walk`). -/
def findDefIndex (lines : List String) (f : String) : Option Nat :=
  lines.findIdx? (fun l => pyStartswith (pyLstrip l) ("def " ++ f ++ "("))

/-- Length of the indented block following a `def` line at indentation
`indent`: lines that are blank or more deeply indented. -/
def blockLength (indent : Nat) : List String → Nat
  | [] => 0
  | l :: rest =>
    if pyStrip l = "" || decide (leadingSpaces l > indent) then
      1 + blockLength indent rest
    else 0

/-- Drop trailing blank lines (the `end_lineno` of a `FunctionDef` stops
at its last statement). -/
def dropTrailingBlanks (ls : List String) : List String :=
  (ls.reverse.dropWhile (fun l => pyStrip l = "")).reverse

/-- The `lineno .. end_lineno` slice of the `FunctionDef` named `f`,
each line stripped; `none` when no such definition exists in the file.
The node extent is modelled indentation-wise. -/
def findFunctionLines (contents f : String) : Option (List String) :=
  let lines := pySplit contents "\n"
  match findDefIndex lines f with
  | none => none
  | some i =>
    let defLine := lines.getD i ""
    let indent := leadingSpaces defLine
    let after := lines.drop (i + 1)
    let body := after.take (blockLength indent after)
    some ((defLine :: dropTrailingBlanks body).map pyStrip)

/-- One iteration of the loop of `extract_function_code_from_traceback`:
for a record with truthy `source_file` and `tested_function`, an
unreadable file appends the file-not-found placeholder, a found
definition appends its stripped lines, and a readable file with no
matching definition appends nothing (the `break` without `append`). -/
def snippetStep (fs : FS) (functions : List (List String))
    (t : TracebackInfo) : List (List String) :=
  if t.source_file != "" && t.tested_function != "" then
    match readFile fs t.source_file with
    | none => functions ++ [["File not found: " ++ t.source_file]]
    | some contents =>
      match findFunctionLines contents t.tested_function with
      | some ls => functions ++ [ls]
      | none => functions
  else functions

/-- `extract_function_code_from_traceback`: an empty input list yields
the sentinel; otherwise fold `snippetStep` over the records. -/
def extract_function_code_from_traceback (fs : FS)
    (traceback_info_list : List TracebackInfo) : List (List String) :=
  match traceback_info_list with
  | [] => [["No Functions Found"]]
  | _ => traceback_info_list.foldl (snippetStep fs) []

/-! ## Helper accessors used by the theorems -/

/-- The record list of an `ExtractResult` (empty for the sentinel). -/
def recordsOf : ExtractResult → List TracebackInfo
  | .strings _ => []
  | .records l => l

/-! ## Shared lemmas -/

/-- When no iterated candidate appears among the called functions, the
selection loop assigns nothing. -/
lemma selectLoop_snd_eq_none (called : List String) :
    ∀ l : List String, (∀ x ∈ l, x ∉ called) →
      (selectLoop called l).2 = none
  | [], _ => rfl
  | [x], h => by simp [selectLoop, h x (by simp)]
  | x :: y :: t, h => by
    have hx : called.contains x = false := by
      simpa using h x (by simp)
    simp only [selectLoop, hx, Bool.false_eq_true, if_false]
    exact selectLoop_snd_eq_none called (y :: t)
      (fun z hz => h z (List.mem_cons_of_mem x hz))

/-- `processLineErr` touches only `stack_trace` and the error fields. -/
lemma processLineErr_fields (ti : TracebackInfo) (l : String) :
    (processLineErr ti l).tested_function = ti.tested_function ∧
      (processLineErr ti l).source_file = ti.source_file ∧
      (processLineErr ti l).full_traceback = ti.full_traceback ∧
      (processLineErr ti l).actual_value = ti.actual_value ∧
      (processLineErr ti l).expected_value = ti.expected_value := by
  unfold processLineErr
  repeat' split
  all_goals exact ⟨rfl, rfl, rfl, rfl, rfl⟩

/-- `assertEval` touches only the two operand fields. -/
lemma assertEval_fields (e : String → Option PyLit) (ti : TracebackInfo)
    (l : String) :
    (assertEval e ti l).tested_function = ti.tested_function ∧
      (assertEval e ti l).source_file = ti.source_file ∧
      (assertEval e ti l).full_traceback = ti.full_traceback ∧
      (assertEval e ti l).error_type = ti.error_type ∧
      (assertEval e ti l).error_message = ti.error_message := by
  unfold assertEval
  repeat' split
  all_goals exact ⟨rfl, rfl, rfl, rfl, rfl⟩

/-- When every `eval` raises, `assertEval` leaves the operand fields
unchanged. -/
lemma assertEval_values (e : String → Option PyLit)
    (he : ∀ s, e s = none) (ti : TracebackInfo) (l : String) :
    (assertEval e ti l).actual_value = ti.actual_value ∧
      (assertEval e ti l).expected_value = ti.expected_value := by
  unfold assertEval
  repeat' split
  all_goals simp_all [he]

/-- `processLine` never touches `tested_function`. -/
lemma processLine_tested_function (e : String → Option PyLit)
    (ti : TracebackInfo) (l : String) :
    (processLine e ti l).tested_function = ti.tested_function := by
  unfold processLine processLineAssert
  split
  · exact ((assertEval_fields e _ l).1).trans (processLineErr_fields ti l).1
  · exact (processLineErr_fields ti l).1

/-- When every `eval` raises, `processLine` leaves the operand fields
unchanged. -/
lemma processLine_values (e : String → Option PyLit)
    (he : ∀ s, e s = none) (ti : TracebackInfo) (l : String) :
    (processLine e ti l).actual_value = ti.actual_value ∧
      (processLine e ti l).expected_value = ti.expected_value := by
  unfold processLine processLineAssert
  split
  · obtain ⟨h1, h2⟩ := assertEval_values e he
      { processLineErr ti l with assertion_detail := pyStrip l } l
    exact ⟨h1.trans (processLineErr_fields ti l).2.2.2.1,
      h2.trans (processLineErr_fields ti l).2.2.2.2⟩
  · exact ⟨(processLineErr_fields ti l).2.2.2.1,
      (processLineErr_fields ti l).2.2.2.2⟩

/-- Specification-level description of how one line updates the pair
`(error_type, error_message)`: file-location lines leave it alone; a
marker line updates it only while the message component is empty,
splitting the post-marker text on the first `": "` (message-only when
the separator is absent); all other lines leave it alone. -/
def errorFieldsStep (l : String) (tm : String × String) :
    String × String :=
  if substr "File " l && substr ", line " l then tm
  else if pyStartswith l "E   " then
    if tm.2 = "" then
      match splitFirst (pyDrop l 4) ": " with
      | (k, some v) => (k, v)
      | (k, none) => (tm.1, k)
    else tm
  else tm

/-- The scan of `errorFieldsStep` over all lines of the blob. -/
def errorFieldsScan (lines : List String) (tm : String × String) :
    String × String :=
  lines.foldl (fun tm l => errorFieldsStep l tm) tm

/-- `processLineAssert` leaves the error fields alone. -/
lemma processLineAssert_error_fields (e : String → Option PyLit)
    (ti : TracebackInfo) (l : String) :
    (processLineAssert e ti l).error_type = ti.error_type ∧
      (processLineAssert e ti l).error_message = ti.error_message := by
  unfold processLineAssert
  split
  · exact ⟨(assertEval_fields e _ l).2.2.2.1,
      (assertEval_fields e _ l).2.2.2.2⟩
  · exact ⟨rfl, rfl⟩

/-- `processLineErr` updates the error fields exactly as
`errorFieldsStep` describes. -/
lemma processLineErr_error_fields (ti : TracebackInfo) (l : String) :
    ((processLineErr ti l).error_type,
      (processLineErr ti l).error_message) =
      errorFieldsStep l (ti.error_type, ti.error_message) := by
  unfold processLineErr errorFieldsStep
  repeat' split
  all_goals simp_all

/-- One line-loop iteration updates the error fields exactly as
`errorFieldsStep` describes. -/
lemma processLine_error_fields (e : String → Option PyLit)
    (ti : TracebackInfo) (l : String) :
    ((processLine e ti l).error_type,
      (processLine e ti l).error_message) =
      errorFieldsStep l (ti.error_type, ti.error_message) := by
  unfold processLine
  rw [(processLineAssert_error_fields e (processLineErr ti l) l).1,
    (processLineAssert_error_fields e (processLineErr ti l) l).2]
  exact processLineErr_error_fields ti l

/-- The whole line loop updates the error fields exactly as
`errorFieldsScan` describes. -/
lemma foldl_processLine_error_fields (e : String → Option PyLit) :
    ∀ (lines : List String) (ti : TracebackInfo),
      ((lines.foldl (processLine e) ti).error_type,
        (lines.foldl (processLine e) ti).error_message) =
        errorFieldsScan lines (ti.error_type, ti.error_message)
  | [], _ => rfl
  | l :: ls, ti => by
    rw [List.foldl_cons,
      foldl_processLine_error_fields e ls (processLine e ti l),
      processLine_error_fields e ti l]
    rfl

/-- Fold version of `processLine_tested_function`. -/
lemma foldl_processLine_tested_function (e : String → Option PyLit) :
    ∀ (lines : List String) (ti : TracebackInfo),
      (lines.foldl (processLine e) ti).tested_function =
        ti.tested_function
  | [], _ => rfl
  | l :: ls, ti => by
    rw [List.foldl_cons, foldl_processLine_tested_function e ls,
      processLine_tested_function]

/-- Fold version of `processLine_values`. -/
lemma foldl_processLine_values (e : String → Option PyLit)
    (he : ∀ s, e s = none) :
    ∀ (lines : List String) (ti : TracebackInfo),
      (lines.foldl (processLine e) ti).actual_value = ti.actual_value ∧
        (lines.foldl (processLine e) ti).expected_value =
          ti.expected_value
  | [], _ => ⟨rfl, rfl⟩
  | l :: ls, ti => by
    rw [List.foldl_cons]
    obtain ⟨h1, h2⟩ := foldl_processLine_values e he ls (processLine e ti l)
    obtain ⟨h3, h4⟩ := processLine_values e he ti l
    exact ⟨h1.trans h3, h2.trans h4⟩

/-- The error fields of the string path are the `errorFieldsScan` of the
blob's lines, started from the incoming record's error fields (the
pre-loop assignments touch other fields only). -/
lemma process_string_error_fields (fs : FS) (e : String → Option PyLit)
    (c : String → List String) (o : List String) (blob : String)
    (ti : TracebackInfo) (tp fc : String) :
    ((process_string_longrepr fs e c o blob ti tp fc).error_type,
      (process_string_longrepr fs e c o blob ti tp fc).error_message) =
      errorFieldsScan (pySplit blob "\n")
        (ti.error_type, ti.error_message) := by
  unfold process_string_longrepr
  rw [foldl_processLine_error_fields]
  congr 1
  repeat' split
  all_goals rfl

/-- The error fields of the dictionary path are the first-`": "` split of
the crash message (message-only when the separator is absent). -/
lemma process_dict_error_fields (fs : FS) (c : String → List String)
    (o : List String) (lr : DictLongrepr) (ti : TracebackInfo)
    (tp fc : String) :
    ((process_dict_longrepr fs c o lr ti tp fc).error_type,
      (process_dict_longrepr fs c o lr ti tp fc).error_message) =
      match splitFirst (lr.reprcrash.getD {}).message ": " with
      | (k, some v) => (k, v)
      | (_, none) => (ti.error_type, (lr.reprcrash.getD {}).message) := by
  unfold process_dict_longrepr
  repeat' split
  all_goals
    cases hsel :
      (selectLoop (c tp) (testedIter (extract_tested_functions fc) o)).2 <;>
    simp_all

/-- `splitCharsAux` never returns the empty list. -/
lemma splitCharsAux_ne_nil (sep : List Char) :
    ∀ (fuel : Nat) (acc s : List Char),
      splitCharsAux sep fuel acc s ≠ []
  | 0, _, _ => by simp [splitCharsAux]
  | fuel + 1, acc, s => by
    unfold splitCharsAux
    split
    · simp
    · match s with
      | [] => simp
      | c :: t => exact splitCharsAux_ne_nil sep fuel (acc ++ [c]) t

/-- A single-chunk split means the separator never occurred: the chunk
is the accumulator followed by the rest of the input. -/
lemma splitCharsAux_single (sep : List Char) :
    ∀ (fuel : Nat) (acc s x : List Char),
      splitCharsAux sep fuel acc s = [x] → x = acc ++ s
  | 0, acc, s, x, h => by
    simp [splitCharsAux] at h
    exact h.symm
  | fuel + 1, acc, s, x, h => by
    unfold splitCharsAux at h
    split at h
    · simp only [List.cons.injEq] at h
      exact absurd h.2 (splitCharsAux_ne_nil sep fuel [] _)
    · match s with
      | [] =>
        simp at h
        simp [h.symm]
      | c :: t =>
        have := splitCharsAux_single sep fuel (acc ++ [c]) t x h
        simp [this]

/-- When `splitFirst` reports no separator, its first component is the
whole input string. -/
lemma splitFirst_none (s sep : String)
    (h : (splitFirst s sep).2 = none) : (splitFirst s sep).1 = s := by
  unfold splitFirst pySplit at *
  rcases haux : splitCharsAux sep.toList s.toList.length [] s.toList with
    _ | ⟨chunk, rest⟩
  · exact absurd haux (splitCharsAux_ne_nil _ _ _ _)
  · rcases rest with _ | ⟨chunk2, rest2⟩
    · have := splitCharsAux_single sep.toList s.toList.length [] s.toList
        chunk haux
      simp only [haux, List.map_cons, List.map_nil]
      simp only [this, List.nil_append]
      rfl
    · rw [haux] at h
      simp at h

/-- Soundness of the import scan: the result is empty, or an
import-derived candidate of one of the lines whose file defines the
function.  No other file is ever returned. -/
lemma scanImportLines_spec (fs : FS) (fn : String) :
    ∀ ls : List String, scanImportLines fs fn ls = "" ∨
      ∃ line ∈ ls,
        importCandidate line = some (scanImportLines fs fn ls) ∧
          function_exists_in_file fs (scanImportLines fs fn ls) fn = true
  | [] => .inl rfl
  | line :: rest => by
    unfold scanImportLines
    cases h : importCandidate line with
    | none =>
      dsimp only
      rcases scanImportLines_spec fs fn rest with h' | ⟨l, hl, h1, h2⟩
      · exact .inl h'
      · exact .inr ⟨l, List.mem_cons_of_mem line hl, h1, h2⟩
    | some fp =>
      dsimp only
      by_cases hex : function_exists_in_file fs fp fn = true
      · rw [if_pos hex]
        exact .inr ⟨line, List.mem_cons_self line rest, h, hex⟩
      · rw [if_neg hex]
        rcases scanImportLines_spec fs fn rest with h' | ⟨l, hl, h1, h2⟩
        · exact .inl h'
        · exact .inr ⟨l, List.mem_cons_of_mem line hl, h1, h2⟩

/-- Records whose `tested_function` is empty are skipped by the snippet
fold. -/
lemma foldl_snippetStep_skip (fs : FS) :
    ∀ (l : List TracebackInfo) (acc : List (List String)),
      (∀ t ∈ l, t.tested_function = "") →
        l.foldl (snippetStep fs) acc = acc
  | [], _, _ => rfl
  | t :: rest, acc, h => by
    rw [List.foldl_cons]
    have ht : snippetStep fs acc t = acc := by
      simp [snippetStep, h t (by simp)]
    rw [ht]
    exact foldl_snippetStep_skip fs rest acc
      (fun z hz => h z (List.mem_cons_of_mem t hz))

/-- Every record produced by the test loop carries some information. -/
lemma mem_tracebackLoop (fs : FS) (e : String → Option PyLit)
    (c : String → List String) (o : List String) (fc : String) :
    ∀ (tests : List TestEntry) (ti : TracebackInfo),
      ti ∈ tracebackLoop fs e c o fc tests →
        hasTracebackInfo ti = true
  | [], ti, h => by simp [tracebackLoop] at h
  | t :: rest, ti, h => by
    unfold tracebackLoop at h
    split at h
    · dsimp only at h
      split at h
      · rcases List.mem_cons.mp h with h' | h'
        · subst h'
          assumption
        · exact mem_tracebackLoop fs e c o fc rest ti h'
      · exact mem_tracebackLoop fs e c o fc rest ti h
    · exact mem_tracebackLoop fs e c o fc rest ti h

/-- When the selection loop assigns nothing, the string path leaves
`tested_function` unchanged. -/
lemma process_string_tested_function (fs : FS) (e : String → Option PyLit)
    (c : String → List String) (o : List String) (blob : String)
    (ti : TracebackInfo) (tp fc : String)
    (hsel : (selectLoop (c tp)
      (testedIter (extract_tested_functions fc) o)).2 = none) :
    (process_string_longrepr fs e c o blob ti tp fc).tested_function =
      ti.tested_function := by
  unfold process_string_longrepr
  rw [foldl_processLine_tested_function, hsel]
  repeat' split
  all_goals first | rfl | simp_all

/-- When the selection loop assigns nothing, the dictionary path leaves
`tested_function` unchanged. -/
lemma process_dict_tested_function (fs : FS)
    (c : String → List String) (o : List String) (lr : DictLongrepr)
    (ti : TracebackInfo) (tp fc : String)
    (hsel : (selectLoop (c tp)
      (testedIter (extract_tested_functions fc) o)).2 = none) :
    (process_dict_longrepr fs c o lr ti tp fc).tested_function =
      ti.tested_function := by
  unfold process_dict_longrepr
  dsimp only
  rcases hs : selectLoop (c tp) (testedIter (extract_tested_functions fc) o)
    with ⟨func, sel⟩
  rw [hs] at hsel
  simp only at hsel
  subst hsel
  repeat' split
  all_goals first | rfl | simp_all

/-- When every `eval` raises, the string path leaves both operand fields
unchanged. -/
lemma process_string_values (fs : FS) (e : String → Option PyLit)
    (c : String → List String) (o : List String) (blob : String)
    (ti : TracebackInfo) (tp fc : String) (he : ∀ s, e s = none) :
    (process_string_longrepr fs e c o blob ti tp fc).actual_value =
        ti.actual_value ∧
      (process_string_longrepr fs e c o blob ti tp fc).expected_value =
        ti.expected_value := by
  unfold process_string_longrepr
  constructor
  · rw [(foldl_processLine_values e he _ _).1]
    repeat' split
    all_goals rfl
  · rw [(foldl_processLine_values e he _ _).2]
    repeat' split
    all_goals rfl


/-! ## Claim theorems -/

/-- C1 (counterexample): a report missing the `summary` key makes
neither extraction call fail — `extract_tracebacks` and
`extract_failing_test_details` both succeed (with empty results) and no
`MalformedReport`-style condition is raised; a report missing the case
list makes `extract_tracebacks` return an empty result rather than
abort.  This refutes the claim that a missing case-list / root / summary
key always fails the extraction call. -/
theorem C1_counterexample :
    extract_tracebacks [] (fun _ => none) (fun _ => []) []
        (some { tests := some [], root := some "/r", summary := none })
        "" = .records [] ∧
      extract_failing_test_details (fun s _ => s)
        { tests := some [], root := some "/r", summary := none } =
        .ok ("\n", []) ∧
      extract_tracebacks [] (fun _ => none) (fun _ => []) []
        (some { tests := none, root := some "/r",
                summary := some [("passed", 2)] }) "" = .records [] :=
  ⟨rfl, rfl, rfl⟩

/-- C1 (amended): neither extraction call consults the `summary` key at
all; `extract_tracebacks` never fails — a missing case list yields an
empty record list — while `extract_failing_test_details` raises a
`KeyError` for a missing case list. -/
theorem C1_amended (pts : String → Nat → String) (rpt : Report)
    (fs : FS) (e : String → Option PyLit) (c : String → List String)
    (o : List String) (fc : String)
    (s₁ s₂ : Option (List (String × Int))) :
    (extract_failing_test_details pts { rpt with summary := s₁ } =
        extract_failing_test_details pts { rpt with summary := s₂ }) ∧
      (extract_tracebacks fs e c o (some { rpt with summary := s₁ }) fc =
        extract_tracebacks fs e c o (some { rpt with summary := s₂ }) fc) ∧
      (rpt.tests = none →
        extract_failing_test_details pts rpt =
          .error "KeyError: tests") ∧
      (rpt.tests = none →
        extract_tracebacks fs e c o (some rpt) fc = .records []) := by
  refine ⟨rfl, rfl, fun h => ?_, fun h => ?_⟩
  · unfold extract_failing_test_details
    rw [h]
    rfl
  · unfold extract_tracebacks
    dsimp only
    rw [h]
    rfl

/-- C1 (witness for the amended theorem at a concrete report). -/
theorem C1_witness :
    (extract_failing_test_details (fun s _ => s)
        { tests := none, root := some "/r", summary := some [] } =
        .error "KeyError: tests") ∧
      (extract_tracebacks [] (fun _ => none) (fun _ => []) []
        (some { tests := none, root := some "/r", summary := some [] })
        "" = .records []) :=
  ⟨(C1_amended (fun s _ => s)
      { tests := none, root := some "/r", summary := some [] }
      [] (fun _ => none) (fun _ => []) [] "" none none).2.2.1 rfl,
    (C1_amended (fun s _ => s)
      { tests := none, root := some "/r", summary := some [] }
      [] (fun _ => none) (fun _ => []) [] "" none none).2.2.2 rfl⟩

/-- C2 (counterexample): on a failing case with a dictionary `longrepr`
whose source resolution fails, the emitted record's `source_file` holds
the placeholder text `"File not found"` — refuting the claim that no
operation ever stores a placeholder value in a diagnostic field. -/
theorem C2_counterexample :
    (recordsOf (extract_tracebacks [("t.py", "")] (fun _ => none)
        (fun _ => []) []
        (some
          { tests :=
              some
                [{ nodeid := some "t.py::t",
                   outcome := some "failed",
                   call :=
                     some
                       { longrepr :=
                           some (.inr
                             { reprcrash :=
                                 some
                                   { message :=
                                       "AssertionError: boom" } }) } }],
            root := some "/",
            summary := some [] })
        "foo()")).map (fun ti => ti.source_file) = ["File not found"] :=
  rfl

/-- C2 (amended): `tested_function` is left unchanged when no candidate
matches, and `actual_value`/`expected_value` are left unchanged when
every operand evaluation raises — but `source_file` does receive the
`"File not found"` placeholder in the dictionary path (see the
counterexample). -/
theorem C2_amended (fs : FS) (e : String → Option PyLit)
    (c : String → List String) (o : List String) (blob : String)
    (lr : DictLongrepr) (ti : TracebackInfo) (tp fc : String)
    (hsel : ∀ x ∈ testedIter (extract_tested_functions fc) o, x ∉ c tp)
    (he : ∀ s, e s = none) :
    (process_string_longrepr fs e c o blob ti tp fc).tested_function =
        ti.tested_function ∧
      (process_string_longrepr fs e c o blob ti tp fc).actual_value =
        ti.actual_value ∧
      (process_string_longrepr fs e c o blob ti tp fc).expected_value =
        ti.expected_value ∧
      (process_dict_longrepr fs c o lr ti tp fc).tested_function =
        ti.tested_function := by
  have hnone := selectLoop_snd_eq_none (c tp)
    (testedIter (extract_tested_functions fc) o) hsel
  exact ⟨process_string_tested_function fs e c o blob ti tp fc hnone,
    (process_string_values fs e c o blob ti tp fc he).1,
    (process_string_values fs e c o blob ti tp fc he).2,
    process_dict_tested_function fs c o lr ti tp fc hnone⟩

/-- C2 (witness for the amended theorem at concrete inputs). -/
theorem C2_witness :
    (process_string_longrepr [] (fun _ => none) (fun _ => []) []
        "E   boom" {} "t.py::t" "x").tested_function =
      ({} : TracebackInfo).tested_function ∧
    (process_string_longrepr [] (fun _ => none) (fun _ => []) []
        "E   boom" {} "t.py::t" "x").actual_value =
      ({} : TracebackInfo).actual_value ∧
    (process_string_longrepr [] (fun _ => none) (fun _ => []) []
        "E   boom" {} "t.py::t" "x").expected_value =
      ({} : TracebackInfo).expected_value ∧
    (process_dict_longrepr [] (fun _ => []) [] {} {} "t.py::t"
        "x").tested_function = ({} : TracebackInfo).tested_function :=
  C2_amended [] (fun _ => none) (fun _ => []) [] "E   boom" {} {}
    "t.py::t" "x" (by decide) (fun _ => rfl)

/-- C3 (counterexample): the import scan of the test file finds nothing,
yet a file in the project tree (`src/mod.py`) defines the tested
function; `find_source_file` nevertheless returns `""` — there is no
fallback walk of the project tree, refuting the claim that such a walk
returns the first defining file. -/
theorem C3_counterexample :
    find_source_file
        [("tests/test_a.py", "import pytest\n"),
         ("src/mod.py", "def add(x):\n    return x\n")]
        "tests/test_a.py::test_add" "add" = "" ∧
      definesFunction "def add(x):\n    return x\n" "add" = true :=
  ⟨rfl, rfl⟩

/-- C3 (amended): `find_source_file` has no fallback: its result is
either empty (import scan exhausted, field left absent), the
error-message string for an unreadable test file, or an import-derived
candidate path of some line of the test file whose file defines the
function.  No file is ever found by walking the project tree. -/
theorem C3_amended (fs : FS) (tp fn : String) :
    find_source_file fs tp fn = "" ∨
      (readFile fs ((pySplit tp "::").headD "") = none ∧
        find_source_file fs tp fn =
          "Error reading file " ++ (pySplit tp "::").headD "" ++
            ": [Errno 2] No such file or directory") ∨
      (∃ contents,
        readFile fs ((pySplit tp "::").headD "") = some contents ∧
        ∃ line ∈ pySplit contents "\n",
          importCandidate line = some (find_source_file fs tp fn) ∧
            function_exists_in_file fs (find_source_file fs tp fn) fn =
              true) := by
  have hmain : ∀ contents,
      readFile fs ((pySplit tp "::").headD "") = some contents →
      find_source_file fs tp fn =
        scanImportLines fs fn (pySplit contents "\n") := by
    intro cs hc
    unfold find_source_file
    dsimp only
    rw [hc]
  cases hr : readFile fs ((pySplit tp "::").headD "") with
  | none =>
    refine .inr (.inl ⟨rfl, ?_⟩)
    unfold find_source_file
    dsimp only
    rw [hr]
  | some cs =>
    rcases scanImportLines_spec fs fn (pySplit cs "\n") with h' |
      ⟨l, hl, h1, h2⟩
    · left
      rw [hmain cs hr]
      exact h'
    · refine .inr (.inr ⟨cs, rfl, l, hl, ?_, ?_⟩)
      · rw [hmain cs hr]
        exact h1
      · rw [hmain cs hr]
        exact h2

/-- C4 (counterexample): with an empty intersection (`called` is empty),
`tested_function` stays unset as claimed, but the string path still
resolves `source_file` against the leaked, unconfirmed candidate
`helper` — yielding `"mod.py"` instead of the empty `source_file` the
claim requires. -/
theorem C4_counterexample :
    extract_tested_functions "helper()" = .set ["helper"] ∧
      (process_string_longrepr
        [("tests/test_x.py", "import mod\n"),
         ("mod.py", "def helper():\n    pass\n")]
        (fun _ => none) (fun _ => []) ["helper"] "" {}
        "tests/test_x.py::test_x" "helper()").tested_function = "" ∧
      (process_string_longrepr
        [("tests/test_x.py", "import mod\n"),
         ("mod.py", "def helper():\n    pass\n")]
        (fun _ => none) (fun _ => []) ["helper"] "" {}
        "tests/test_x.py::test_x" "helper()").source_file = "mod.py" :=
  ⟨rfl, rfl, rfl⟩

/-- C4 (amended): an empty intersection leaves `tested_function` unset
in both paths, and the snippet stage then appends nothing for such
records (it requires a non-empty `tested_function`) — but `source_file`
is not left empty: the string path may resolve it against the leaked
unconfirmed candidate and the dictionary path stores a placeholder. -/
theorem C4_amended (fs : FS) (e : String → Option PyLit)
    (c : String → List String) (o : List String) (blob : String)
    (lr : DictLongrepr) (ti : TracebackInfo) (tp fc : String)
    (hsel : ∀ x ∈ testedIter (extract_tested_functions fc) o, x ∉ c tp) :
    (process_string_longrepr fs e c o blob ti tp fc).tested_function =
        ti.tested_function ∧
      (process_dict_longrepr fs c o lr ti tp fc).tested_function =
        ti.tested_function ∧
      ∀ l : List TracebackInfo, l ≠ [] →
        (∀ t ∈ l, t.tested_function = "") →
          extract_function_code_from_traceback fs l = [] := by
  have hnone := selectLoop_snd_eq_none (c tp)
    (testedIter (extract_tested_functions fc) o) hsel
  refine ⟨process_string_tested_function fs e c o blob ti tp fc hnone,
    process_dict_tested_function fs c o lr ti tp fc hnone, ?_⟩
  intro l hne hall
  cases l with
  | nil => exact absurd rfl hne
  | cons t rest =>
    unfold extract_function_code_from_traceback
    exact foldl_snippetStep_skip fs (t :: rest) [] hall

/-- C4 (witness for the amended theorem at concrete inputs). -/
theorem C4_witness :
    (process_string_longrepr [] (fun _ => none) (fun _ => []) [] "big"
        {} "t.py::t" "x").tested_function =
      ({} : TracebackInfo).tested_function ∧
    (process_dict_longrepr [] (fun _ => []) [] {} {} "t.py::t"
        "x").tested_function = ({} : TracebackInfo).tested_function ∧
    extract_function_code_from_traceback []
        [{ tested_function := "" }] = [] :=
  ⟨(C4_amended [] (fun _ => none) (fun _ => []) [] "big" {} {} "t.py::t"
      "x" (by decide)).1,
    (C4_amended [] (fun _ => none) (fun _ => []) [] "big" {} {} "t.py::t"
      "x" (by decide)).2.1,
    (C4_amended [] (fun _ => none) (fun _ => []) [] "big" {} {} "t.py::t"
      "x" (by decide)).2.2 [{ tested_function := "" }] (by simp)
      (by simp)⟩

/-- C5 (code bug): the candidate collection is a Python `set`, iterated
in an unspecified, hash-seed dependent order — the code's own comment
says "list" and the spec demands insertion order.  For the failing input
`"foo()\nbar()"` with both candidates called in the test body, the two
admissible iteration orders of the same set select different
`tested_function` values, so the choice is not the insertion-order first
element and not a deterministic function of the file contents. -/
theorem C5_bug :
    extract_tested_functions "foo()\nbar()" = .set ["foo", "bar"] ∧
      List.Perm ["bar", "foo"] ["foo", "bar"] ∧
      (process_string_longrepr [] (fun _ => none)
        (fun _ => ["foo", "bar"]) ["foo", "bar"] "" {} "t.py::t"
        "foo()\nbar()").tested_function = "foo" ∧
      (process_string_longrepr [] (fun _ => none)
        (fun _ => ["foo", "bar"]) ["bar", "foo"] "" {} "t.py::t"
        "foo()\nbar()").tested_function = "bar" := by
  refine ⟨rfl, ?_, rfl, rfl⟩
  decide

/-- C6: feeding semantically equivalent failure information through
either traceback shape yields identical `error_type`/`error_message`:
for any single-line text blob prefixed by the error marker whose
post-marker content equals the structured tree's crash message (and
which is not consumed as a file-location line), the string path and the
dictionary path produce the same error fields. -/
theorem C6_equivalence (fs : FS) (e : String → Option PyLit)
    (c : String → List String) (o : List String) (blob m tp fc : String)
    (ti : TracebackInfo) (entries : List (Option ReprFileLoc))
    (hmsg : ti.error_message = "")
    (hline : pySplit blob "\n" = [blob])
    (hpre : pyStartswith blob "E   " = true)
    (hdrop : pyDrop blob 4 = m)
    (hloc : (substr "File " blob && substr ", line " blob) = false) :
    (process_string_longrepr fs e c o blob ti tp fc).error_type =
        (process_dict_longrepr fs c o
          { reprcrash := some { message := m },
            reprentries := entries } ti tp fc).error_type ∧
      (process_string_longrepr fs e c o blob ti tp fc).error_message =
        (process_dict_longrepr fs c o
          { reprcrash := some { message := m },
            reprentries := entries } ti tp fc).error_message := by
  have hs := process_string_error_fields fs e c o blob ti tp fc
  have hd := process_dict_error_fields fs c o
    { reprcrash := some { message := m }, reprentries := entries }
    ti tp fc
  dsimp only at hd
  simp only [Option.getD_some] at hd
  rw [hline] at hs
  have hstep : errorFieldsScan [blob] (ti.error_type, ti.error_message) =
      (match splitFirst m ": " with
        | (k, some v) => (k, v)
        | (k, none) => (ti.error_type, k)) := by
    have h1 : ¬((substr "File " blob && substr ", line " blob) = true) := by
      rw [hloc]
      exact Bool.false_ne_true
    unfold errorFieldsScan
    simp only [List.foldl_cons, List.foldl_nil]
    unfold errorFieldsStep
    rw [if_neg h1, if_pos hpre,
      if_pos (show (ti.error_type, ti.error_message).2 = "" from hmsg),
      hdrop]
  rw [hstep] at hs
  rcases hsp : splitFirst m ": " with ⟨k, vo⟩
  cases vo with
  | some v =>
    rw [hsp] at hs hd
    simp only [Prod.mk.injEq] at hs hd
    exact ⟨hs.1.trans hd.1.symm, hs.2.trans hd.2.symm⟩
  | none =>
    have hk : k = m := by
      have h2 := splitFirst_none m ": " (by rw [hsp])
      rw [hsp] at h2
      exact h2
    rw [hsp] at hs hd
    simp only [Prod.mk.injEq] at hs hd
    refine ⟨hs.1.trans hd.1.symm, ?_⟩
    rw [hs.2, hk]
    exact hd.2.symm

/-- C6 (witness at a concrete crash message). -/
theorem C6_witness :
    (process_string_longrepr [] (fun _ => none) (fun _ => []) []
        "E   AssertionError: assert 3 == 4" {} "t.py::t"
        "x").error_type =
        (process_dict_longrepr [] (fun _ => []) []
          { reprcrash :=
              some { message := "AssertionError: assert 3 == 4" },
            reprentries := [] } {} "t.py::t" "x").error_type ∧
      (process_string_longrepr [] (fun _ => none) (fun _ => []) []
        "E   AssertionError: assert 3 == 4" {} "t.py::t"
        "x").error_message =
        (process_dict_longrepr [] (fun _ => []) []
          { reprcrash :=
              some { message := "AssertionError: assert 3 == 4" },
            reprentries := [] } {} "t.py::t" "x").error_message :=
  C6_equivalence [] (fun _ => none) (fun _ => []) []
    "E   AssertionError: assert 3 == 4" "AssertionError: assert 3 == 4"
    "t.py::t" "x" {} [] rfl (by decide) (by decide) (by decide)
    (by decide)

/-- C7 (counterexample): a record with a readable source file that does
not define the tested function produces no placeholder — the entry is
silently omitted (empty output), refuting the claim that a missing
definition yields a single-element placeholder sequence. -/
theorem C7_counterexample :
    extract_function_code_from_traceback [("m.py", "x = 1\n")]
        [{ source_file := "m.py", tested_function := "add" }] = [] :=
  rfl

/-- C7 (amended): for a record with truthy `source_file` and
`tested_function`, an unreadable file appends the single-element
file-not-found placeholder; a readable file lacking the function
definition appends nothing — the entry is silently omitted. -/
theorem C7_amended (fs : FS) (t : TracebackInfo)
    (h1 : t.source_file ≠ "") (h2 : t.tested_function ≠ "") :
    (readFile fs t.source_file = none →
      extract_function_code_from_traceback fs [t] =
        [["File not found: " ++ t.source_file]]) ∧
      (∀ contents, readFile fs t.source_file = some contents →
        findFunctionLines contents t.tested_function = none →
        extract_function_code_from_traceback fs [t] = []) := by
  have hcond : (t.source_file != "" && t.tested_function != "") =
      true := by
    simp [h1, h2]
  constructor
  · intro hr
    unfold extract_function_code_from_traceback
    simp [snippetStep, hcond, hr]
  · intro contents hr hf
    unfold extract_function_code_from_traceback
    simp [snippetStep, hcond, hr, hf]

/-- C7 (witness at concrete inputs: a missing file and a file without
the definition). -/
theorem C7_witness :
    extract_function_code_from_traceback []
        [{ source_file := "m.py", tested_function := "add" }] =
        [["File not found: " ++ "m.py"]] ∧
      extract_function_code_from_traceback [("m.py", "x = 1\n")]
        [{ source_file := "m.py", tested_function := "add" }] = [] :=
  ⟨(C7_amended [] { source_file := "m.py", tested_function := "add" }
      (by decide) (by decide)).1 rfl,
    (C7_amended [("m.py", "x = 1\n")]
      { source_file := "m.py", tested_function := "add" }
      (by decide) (by decide)).2 "x = 1\n" rfl (by decide)⟩

/-- C8 (counterexample): the blob `"E   Foo: \nE   Bar: baz"` has its
first error-marker line split into kind `"Foo"` and an empty message;
because the guard tests only `error_message`, the later marker line
overwrites both fields — the result is `("Bar", "baz")`, refuting the
claim that later marker lines never overwrite. -/
theorem C8_counterexample :
    (process_string_longrepr [] (fun _ => none) (fun _ => []) []
        "E   Foo: \nE   Bar: baz" {} "t.py::t" "x").error_type =
        "Bar" ∧
      (process_string_longrepr [] (fun _ => none) (fun _ => []) []
        "E   Foo: \nE   Bar: baz" {} "t.py::t" "x").error_message =
        "baz" :=
  ⟨rfl, rfl⟩

/-- C8 (amended): the error fields of the string path are computed by
scanning the blob's lines with `errorFieldsScan`: lines matching the
file-location pattern are consumed as stack entries; while
`error_message` is still empty every other marker line overwrites the
fields via the first-`": "` split (message-only without `": "`); once
`error_message` is non-empty later marker lines no longer overwrite. -/
theorem C8_amended (fs : FS) (e : String → Option PyLit)
    (c : String → List String) (o : List String) (blob : String)
    (ti : TracebackInfo) (tp fc : String) :
    ((process_string_longrepr fs e c o blob ti tp fc).error_type,
      (process_string_longrepr fs e c o blob ti tp fc).error_message) =
      errorFieldsScan (pySplit blob "\n")
        (ti.error_type, ti.error_message) :=
  process_string_error_fields fs e c o blob ti tp fc

/-- C9: a diagnostic record reaches the output of `extract_tracebacks`
only if its full traceback text, error message, or stack trace is
non-empty; a failing case yielding none of these contributes no
record. -/
theorem C9_records_have_info (fs : FS) (e : String → Option PyLit)
    (c : String → List String) (o : List String) (rpt : Option Report)
    (fc : String) (ti : TracebackInfo)
    (h : ti ∈ recordsOf (extract_tracebacks fs e c o rpt fc)) :
    ti.full_traceback ≠ "" ∨ ti.error_message ≠ "" ∨
      ti.stack_trace ≠ [] := by
  cases rpt with
  | none => simp [extract_tracebacks, recordsOf] at h
  | some r =>
    have hm := mem_tracebackLoop fs e c o fc (r.tests.getD []) ti
      (by simpa [extract_tracebacks, recordsOf] using h)
    simp only [hasTracebackInfo, Bool.or_eq_true, bne_iff_ne, ne_eq]
      at hm
    tauto

/-- C9 (witness: the record of a concrete failing case with a string
traceback is in the output and carries information). -/
theorem C9_witness :
    ((recordsOf (extract_tracebacks [] (fun _ => none) (fun _ => []) []
        (some
          { tests :=
              some
                [{ nodeid := some "t.py::t",
                   outcome := some "failed",
                   call :=
                     some { longrepr := some (.inl "boom") } }],
            root := some "/",
            summary := some [] })
        "x")).headD {}).full_traceback ≠ "" ∨
      ((recordsOf (extract_tracebacks [] (fun _ => none) (fun _ => [])
        []
        (some
          { tests :=
              some
                [{ nodeid := some "t.py::t",
                   outcome := some "failed",
                   call :=
                     some { longrepr := some (.inl "boom") } }],
            root := some "/",
            summary := some [] })
        "x")).headD {}).error_message ≠ "" ∨
      ((recordsOf (extract_tracebacks [] (fun _ => none) (fun _ => [])
        []
        (some
          { tests :=
              some
                [{ nodeid := some "t.py::t",
                   outcome := some "failed",
                   call :=
                     some { longrepr := some (.inl "boom") } }],
            root := some "/",
            summary := some [] })
        "x")).headD {}).stack_trace ≠ [] :=
  C9_records_have_info [] (fun _ => none) (fun _ => []) []
    (some
      { tests :=
          some
            [{ nodeid := some "t.py::t",
               outcome := some "failed",
               call := some { longrepr := some (.inl "boom") } }],
        root := some "/",
        summary := some [] })
    "x" _ (by decide)

/-- C10: when no call-expression name survives the reserved-prefix
filter, `extract_tested_functions` returns the input string itself, and
the downstream candidate loop therefore iterates over the string's
individual characters (as one-character strings). -/
theorem C10_returns_code (s : String) (h : filteredCallNames s = []) :
    extract_tested_functions s = .code s ∧
      ∀ o : List String, testedIter (extract_tested_functions s) o =
        s.toList.map (fun ch => String.mk [ch]) := by
  have h1 : extract_tested_functions s = .code s := by
    unfold extract_tested_functions
    rw [h]
    rfl
  exact ⟨h1, fun o => by rw [h1]; rfl⟩

/-- C10 (witness at the input `"test_a()"`, whose only call name is
filtered out). -/
theorem C10_witness :
    extract_tested_functions "test_a()" = .code "test_a()" ∧
      testedIter (extract_tested_functions "test_a()") [] =
        "test_a()".toList.map (fun ch => String.mk [ch]) :=
  ⟨(C10_returns_code "test_a()" (by decide)).1,
    (C10_returns_code "test_a()" (by decide)).2 []⟩

end Execexam
